import Mathlib

/-!
Verification of the dispatch/reply bridge in src/src/fs/async_fs.rs: the
polymorphic operation contract (trait AsyncFileSystem) with its per-operation
default behaviors, and the adapter (impl Filesystem for AsyncFs) that turns
each synchronous protocol entry point into a scheduled task producing replies.

The companion modules super::error (FsError and its conversion to a c_int
errno) and super::reply (FsReply and the reply payload types) are not part of
the sources; the definitions below that depend on them are modelled from the
specification and carry a doc comment saying so.
-/

namespace TiFs

/-- OS errno constant ENOSYS (function not implemented), the code used by
reply.error(ENOSYS) in the trait defaults and, per the spec, the fallback
code for unmapped failures. -/
def ENOSYS : Int := 38

/-- OS errno constant EINVAL (invalid argument). -/
def EINVAL : Int := 22

/-- OS errno constant ENOENT (no such entity). -/
def ENOENT : Int := 2

/-- OS errno constant EACCES (permission denied). -/
def EACCES : Int := 13

/-- OS errno constant ERANGE (result out of range). -/
def ERANGE : Int := 34

/-- Modelled from the spec: the failure classification type FsError of
super::error (error.rs is not under the sources). Spec section 7 lists the
taxonomy: not implemented; invalid argument / no such entity / permission
denied / range exceeded / I O failure; unimplemented platform feature. The
constructor other stands for any further classification an implementation
may produce. -/
inductive FsError where
  | unimplemented
  | invalidArgument
  | noSuchEntity
  | permissionDenied
  | rangeExceeded
  | ioFailure
  | platformUnimplemented
  | other (code : Nat)
  deriving DecidableEq, Repr

/-- Modelled from the spec: the Into conversion of FsError to a c_int errno
used by err.into() in AsyncFs::init (error.rs is not under the sources).
Spec sections 4.3 and 7: every classification maps deterministically to an
OS-style error code, and an unmapped or unknown failure maps to the generic
not-implemented / no-such-function code (ENOSYS). -/
def FsError.errno : FsError → Int
  | .unimplemented => ENOSYS
  | .invalidArgument => EINVAL
  | .noSuchEntity => ENOENT
  | .permissionDenied => EACCES
  | .rangeExceeded => ERANGE
  | .ioFailure => 5
  | .platformUnimplemented => ENOSYS
  | .other _ => ENOSYS

/-- The Result type of super::error: success payload or failure
classification (async_fs.rs line 15 imports it). -/
abbrev FsResult (V : Type) := Except FsError V

/-- One call on a one-shot reply sink: either a typed success reply or a
failure reply carrying an OS-style error code. -/
inductive ReplyEvent (V : Type) where
  | ok (v : V)
  | error (code : Int)
  deriving DecidableEq, Repr

/-- Modelled from the spec: FsReply::reply of super::reply (reply.rs is not
under the sources). Spec section 4.2 step 3: the completion step converts the
operation Result into the single reply call the protocol expects, either a
typed success reply or a failure reply carrying the mapped errno. -/
def replyCall {V : Type} : FsResult V → ReplyEvent V
  | .ok v => .ok v
  | .error e => .error e.errno

/-- Embeds spawn_reply (async_fs.rs lines 18 to 29): the spawned task awaits
the operation future and then performs exactly one reply.reply call with the
result. The returned list records the sink calls performed by that scheduled
task, in order. -/
def spawnReplyEvents {V : Type} (result : FsResult V) : List (ReplyEvent V) :=
  [replyCall result]

/-- Embeds the task spawned by AsyncFs::forget (async_fs.rs lines 567 to
574): the future awaits the contract forget and performs no reply call, so
the sink activity of the task is empty. -/
def forgetTaskEvents : List (ReplyEvent Unit) := []

/-- The operations of the Operation Contract (trait AsyncFileSystem,
async_fs.rs lines 31 to 534), including the conditionally compiled macOS
extensions. The constructor open_ renders the source method open. -/
inductive FsOp where
  | init
  | destroy
  | lookup
  | forget
  | getattr
  | setattr
  | readlink
  | mknod
  | mkdir
  | unlink
  | rmdir
  | symlink
  | rename
  | link
  | open_
  | read
  | write
  | flush
  | release
  | fsync
  | opendir
  | readdir
  | readdirplus
  | releasedir
  | fsyncdir
  | statfs
  | setxattr
  | getxattr
  | listxattr
  | removexattr
  | access
  | create
  | getlk
  | setlk
  | bmap
  | ioctl
  | fallocate
  | lseek
  | copy_file_range
  | setvolname
  | exchange
  | getxtimes
  deriving DecidableEq, Fintype, Repr

/-- How the bridge (impl Filesystem for AsyncFs, async_fs.rs lines 550 to
905) handles each operation: blocking means the entry point runs the contract
call to completion on the calling thread with block_on; spawnReply means the
entry point schedules a task through spawn_reply; spawnNoReply means a bare
spawn with no reply sink; spawnWithSink means the reply sink is moved into
the spawned task and handed to the contract method; absent means the impl
block defines no method for the operation. -/
inductive DispatchMode where
  | blocking
  | spawnReply
  | spawnNoReply
  | spawnWithSink
  | absent
  deriving DecidableEq, Repr

/-- Transcribed from the impl block (async_fs.rs lines 550 to 905): init and
destroy use block_on (lines 551 to 557); forget uses a bare spawn with no
reply (lines 567 to 574); readdir (lines 767 to 772) and bmap (lines 900 to
905) move the reply sink into the spawned task; readdirplus, ioctl,
fallocate, lseek, copy_file_range and the macOS extensions have no method in
the impl block; every other operation is dispatched through spawn_reply. -/
def dispatchMode : FsOp → DispatchMode
  | .init => .blocking
  | .destroy => .blocking
  | .forget => .spawnNoReply
  | .readdir => .spawnWithSink
  | .bmap => .spawnWithSink
  | .readdirplus => .absent
  | .ioctl => .absent
  | .fallocate => .absent
  | .lseek => .absent
  | .copy_file_range => .absent
  | .setvolname => .absent
  | .exchange => .absent
  | .getxtimes => .absent
  | _ => .spawnReply

/-- Summary of each default body of the trait AsyncFileSystem: unimpl for
Err(FsError::unimplemented()) or reply.error(ENOSYS); okOpen for an open
outcome granting a handle with flags; okUnit for Ok(()) or reply.ok();
okStatfs for the successful statistics reply of the default statfs; noResult
for methods returning unit with no Result at all (destroy, forget). -/
inductive DefaultOutcome where
  | unimpl
  | okOpen (fh flags : Nat)
  | okUnit
  | okStatfs (blocks bfree bavail files ffree bsize namelen frsize : Nat)
  | noResult
  deriving DecidableEq, Repr

/-- Transcribed from the default bodies of trait AsyncFileSystem (async_fs.rs
lines 31 to 534): init returns Ok(()) (line 37); destroy and forget return
unit (lines 42 and 56); open returns Ok(Open::new(0, 0)) (line 153); release
returns Ok(()) (line 233); opendir replies opened(0, 0) (line 251);
releasedir replies ok (line 298); statfs replies
statfs(0, 0, 0, 0, 0, 512, 255, 0) (line 318); every other default is
Err(FsError::unimplemented()) or reply.error(ENOSYS). -/
def defaultOutcome : FsOp → DefaultOutcome
  | .init => .okUnit
  | .destroy => .noResult
  | .forget => .noResult
  | .open_ => .okOpen 0 0
  | .release => .okUnit
  | .opendir => .okOpen 0 0
  | .releasedir => .okUnit
  | .statfs => .okStatfs 0 0 0 0 0 512 255 0
  | _ => .unimpl

/-- Entry metadata returned by lookup and the creation operations; its fields
(attributes and validity duration, spec section 3) play no role in the claims
and are left abstract. -/
structure Entry

/-- The open reply payload Open of super::reply, built by Open::new(fh,
flags) at async_fs.rs line 153; per the spec it carries the granted handle
and the open flags. -/
structure Open where
  fh : Nat
  flags : Nat
  deriving DecidableEq, Repr

/-- Default body of AsyncFileSystem::lookup (async_fs.rs lines 45 to 47):
Err(FsError::unimplemented()), for any parent and name. -/
def lookupDefault (parent : Nat) (name : String) : FsResult Entry :=
  .error .unimplemented

/-- Default body of AsyncFileSystem::open (async_fs.rs lines 152 to 154):
Ok(Open::new(0, 0)), for any inode and flags. -/
def openDefault (ino : Nat) (flags : Int) : FsResult Open :=
  .ok ⟨0, 0⟩

/-- Default body of AsyncFileSystem::release (async_fs.rs lines 225 to 234):
Ok(()), for any arguments. -/
def releaseDefault (ino fh : Nat) (flags : Int) (lockOwner : Option Nat)
    (flush : Bool) : FsResult Unit :=
  .ok ()

/-- The statistics reply shape of reply.statfs, in the argument order of the
call at async_fs.rs line 318: blocks, bfree, bavail, files, ffree, bsize,
namelen, frsize. -/
structure StatFsReply where
  blocks : Nat
  bfree : Nat
  bavail : Nat
  files : Nat
  ffree : Nat
  bsize : Nat
  namelen : Nat
  frsize : Nat
  deriving DecidableEq, Repr

/-- Default body of AsyncFileSystem::statfs (async_fs.rs lines 317 to 319):
reply.statfs(0, 0, 0, 0, 0, 512, 255, 0), a successful statistics reply. -/
def statfsDefault : StatFsReply :=
  ⟨0, 0, 0, 0, 0, 512, 255, 0⟩

/-- Embeds Filesystem::init for AsyncFs (async_fs.rs lines 551 to 553): the
calling thread blocks on the contract init; Ok passes through, and Err(e) is
converted by err.into() to the errno returned to the transport, which aborts
the mount. -/
def AsyncFs.init (r : FsResult Unit) : Except Int Unit :=
  match r with
  | .ok _ => .ok ()
  | .error e => .error e.errno

/-- Embeds Filesystem::destroy for AsyncFs (async_fs.rs lines 555 to 557):
the calling thread blocks on the contract destroy, whose return type is unit
(line 42), so the bridge destroy returns unit and no failure path exists. -/
def AsyncFs.destroy : Unit := ()

/-- What the synchronous entry point hands back to the transport: init
returns the outcome computed from the blocked-on result (lines 551 to 553);
every other entry point returns unit immediately after calling spawn, carrying
no outcome, rendered here as none. -/
def entrySyncReturn {V : Type} (op : FsOp) (result : FsResult V) :
    Option (Except Int Unit) :=
  match op with
  | .init =>
    some (match result with
      | .ok _ => .ok ()
      | .error e => .error e.errno)
  | _ => none

/-- The per-request identity the transport supplies: fuser::Request exposes
unique(), uid() and gid(), the three accessors the impl block uses (lines
562, 852, 853). -/
structure Request where
  unique : Nat
  uid : Nat
  gid : Nat
  deriving DecidableEq, Repr

/-- Embeds AsyncFs::create (async_fs.rs lines 843 to 860): the entry point
reads uid and gid from the request, copies the borrowed name to an owned
value, and the contract call receives (parent, name, mode, flags, uid, gid)
in that order. -/
def createForwarded (req : Request) (parent : Nat) (name : String)
    (mode flags : Nat) : Nat × String × Nat × Nat × Nat × Nat :=
  (parent, name, mode, flags, req.uid, req.gid)

/-- Which bridge entry points read the uid and gid of the request and forward
them to the contract call: scanning the impl block (async_fs.rs lines 550 to
905), only create does (lines 852 to 853); every other entry point uses only
req.unique(). -/
def forwardsCredentials : FsOp → Bool
  | .create => true
  | _ => false

/-- Parameter names, in declared order after the receiver, of the contract
method write (trait AsyncFileSystem, async_fs.rs lines 190 to 199). -/
def contractWriteParams : List String :=
  ["ino", "fh", "offset", "data", "write_flags", "flags", "lock_owner"]

/-- Arguments, in order, that the bridge write entry point passes in its
contract call (async_fs.rs line 731), after copying the borrowed byte slice
into an owned vector (line 729). -/
def bridgeWriteArgs : List String :=
  ["ino", "fh", "offset", "data", "flags"]

/-- Parameters the transport supplies to the bridge write entry point besides
the request and the reply sink (async_fs.rs lines 718 to 727). -/
def transportWriteParams : List String :=
  ["ino", "fh", "offset", "data", "flags"]

/-- Parameter names, in declared order after the receiver, of the contract
method symlink (trait AsyncFileSystem, async_fs.rs line 123). -/
def contractSymlinkParams : List String :=
  ["parent", "name", "link"]

/-- Arguments, in order, that the bridge symlink entry point passes in its
contract call (async_fs.rs line 673), after copying the borrowed name and
path into owned values (lines 670 to 671). -/
def bridgeSymlinkArgs : List String :=
  ["parent", "name", "link"]

/-- Parameters the transport supplies to the bridge symlink entry point
besides the request and the reply sink (async_fs.rs lines 661 to 667). -/
def transportSymlinkParams : List String :=
  ["parent", "name", "link"]

/-!
Theorems settling the claims.
-/

/-- C1: for every request dispatched through the bridge via spawn_reply, the
scheduled task performs exactly one reply call, whether the operation result
is a success or a failure; the task scheduled for forget performs zero reply
calls. -/
theorem reply_cardinality_bridge :
    (∀ (V : Type) (r : FsResult V), (spawnReplyEvents r).length = 1) ∧
    dispatchMode .forget = .spawnNoReply ∧
    forgetTaskEvents.length = 0 := by
  exact ⟨fun V r => rfl, rfl, rfl⟩

/-- C2 counterexample: statfs refutes the claim that every contract operation
without an override defaults to the not-implemented failure with the sole
exceptions open, opendir, release and releasedir: the default statfs is a
successful statistics reply, and statfs is none of those four operations. -/
theorem statfs_breaks_three_exception_claim :
    defaultOutcome .statfs = .okStatfs 0 0 0 0 0 512 255 0 ∧
    ((defaultOutcome .statfs = .unimpl) = False) ∧
    ((FsOp.statfs = .open_) = False) ∧
    ((FsOp.statfs = .opendir) = False) ∧
    ((FsOp.statfs = .release) = False) ∧
    ((FsOp.statfs = .releasedir) = False) := by
  refine ⟨rfl, ?_, ?_, ?_, ?_, ?_⟩ <;> simp [defaultOutcome]

/-- C2 amended: every contract operation without an override defaults to the
not-implemented failure, except open and opendir (zero-valued handle, no
flags), release and releasedir (unconditional success), statfs (successful
all-zero statistics with block size 512 and name length 255), and the
lifecycle operations init (trivial success), destroy and forget (no result at
all); the scenario open(ino 5, flags 0) yielding handle 0 with no flags and
release(ino 5, fh 0) succeeding holds as stated. -/
theorem default_outcome_catalog :
    (∀ op : FsOp, defaultOutcome op = .unimpl ∨ op = .init ∨ op = .destroy ∨
      op = .forget ∨ op = .open_ ∨ op = .opendir ∨ op = .release ∨
      op = .releasedir ∨ op = .statfs) ∧
    defaultOutcome .open_ = .okOpen 0 0 ∧
    defaultOutcome .opendir = .okOpen 0 0 ∧
    defaultOutcome .release = .okUnit ∧
    defaultOutcome .releasedir = .okUnit ∧
    defaultOutcome .statfs = .okStatfs 0 0 0 0 0 512 255 0 ∧
    defaultOutcome .init = .okUnit ∧
    defaultOutcome .destroy = .noResult ∧
    defaultOutcome .forget = .noResult ∧
    openDefault 5 0 = .ok ⟨0, 0⟩ ∧
    releaseDefault 5 0 0 none false = .ok () := by
  refine ⟨?_, rfl, rfl, rfl, rfl, rfl, rfl, rfl, rfl, rfl, rfl⟩
  decide

/-- C3: every synchronous entry point other than init and destroy that the
bridge defines dispatches into a separately scheduled task (spawn_reply, bare
spawn, or spawn with the sink moved in), and the value the entry point hands
back to the transport does not depend on the operation result for any
operation other than init. -/
theorem entry_points_nonblocking :
    (∀ op : FsOp, op = .init ∨ op = .destroy ∨ dispatchMode op = .absent ∨
      dispatchMode op = .spawnReply ∨ dispatchMode op = .spawnNoReply ∨
      dispatchMode op = .spawnWithSink) ∧
    (∀ (V : Type) (r₁ r₂ : FsResult V) (op : FsOp),
      op = .init ∨ entrySyncReturn op r₁ = entrySyncReturn op r₂) := by
  refine ⟨by decide, ?_⟩
  intro V r₁ r₂ op
  cases op <;> first | exact Or.inl rfl | exact Or.inr rfl

/-- C4: the bridge init runs on the calling thread to completion, passing a
successful contract init through and converting a failing one into the errno
of its failure classification, the outcome that aborts the mount; destroy
likewise runs blocking on the calling thread and, returning unit, has no
failure path. -/
theorem init_destroy_blocking_semantics :
    dispatchMode .init = .blocking ∧
    dispatchMode .destroy = .blocking ∧
    AsyncFs.init (.ok ()) = .ok () ∧
    (∀ e : FsError, AsyncFs.init (.error e) = .error e.errno) ∧
    AsyncFs.destroy = () := by
  exact ⟨rfl, rfl, rfl, fun e => rfl, rfl⟩

/-- C5: lookup(parent 1, name a) on a filesystem that keeps the default
lookup produces the not-implemented failure, and the scheduled task turns it
into exactly one failure reply carrying ENOSYS, the OS code of the
not-implemented classification. -/
theorem lookup_default_enosys_reply :
    lookupDefault 1 "a" = .error .unimplemented ∧
    spawnReplyEvents (lookupDefault 1 "a") = [.error ENOSYS] ∧
    FsError.unimplemented.errno = ENOSYS ∧
    dispatchMode .lookup = .spawnReply := by
  exact ⟨rfl, rfl, rfl, rfl⟩

/-- C6 counterexample: the claim lists readdirplus among the operations whose
reply sink the bridge moves into the scheduled task, but the impl block
defines no readdirplus method at all, so no scheduled task for it exists. -/
theorem readdirplus_not_sink_dispatched :
    dispatchMode .readdirplus = .absent ∧
    ((dispatchMode .readdirplus = .spawnWithSink) = False) := by
  refine ⟨rfl, ?_⟩
  simp [dispatchMode]

/-- C6 amended: readdir and bmap are exactly the operations whose reply sink
the bridge moves into the scheduled task, which alone populates and finalizes
it; the bridge defines no readdirplus entry point, leaving that operation to
the transport layer. -/
theorem sink_moved_ops_catalog :
    dispatchMode .readdir = .spawnWithSink ∧
    dispatchMode .bmap = .spawnWithSink ∧
    dispatchMode .readdirplus = .absent ∧
    (∀ op : FsOp,
      dispatchMode op = .spawnWithSink ↔ (op = .readdir ∨ op = .bmap)) := by
  refine ⟨rfl, rfl, rfl, ?_⟩
  decide

/-- C7: evidence of the divergence between the bridge and the declared
contract. The bridge write entry forwards exactly the five arguments the
transport supplied, unaltered and in order, yet the contract write method
declares seven parameters, so the file flags and the lock owner of the
declared signature receive no forwarded value; symlink, by contrast, forwards
a tuple that matches its declared contract parameters exactly. -/
theorem write_forwarding_arity_mismatch :
    bridgeWriteArgs = transportWriteParams ∧
    bridgeWriteArgs.length = 5 ∧
    contractWriteParams.length = 7 ∧
    ((bridgeWriteArgs = contractWriteParams) = False) ∧
    bridgeSymlinkArgs = transportSymlinkParams ∧
    bridgeSymlinkArgs = contractSymlinkParams := by
  refine ⟨rfl, rfl, rfl, ?_, rfl, rfl⟩
  simp [bridgeWriteArgs, contractWriteParams]

/-- C8: every failure classification handed to the completion step reaches
the reply sink as exactly one failure reply carrying its deterministically
mapped errno (the mapping is a total function), the not-implemented and
unknown classifications map to the generic ENOSYS code, and every
classification lands on one of the fixed OS codes, so no failure is dropped
and none escapes the bridge. -/
theorem error_mapping_total_enosys_fallback :
    (∀ (V : Type) (e : FsError),
      spawnReplyEvents (Except.error e : FsResult V) = [.error e.errno]) ∧
    FsError.unimplemented.errno = ENOSYS ∧
    FsError.platformUnimplemented.errno = ENOSYS ∧
    (∀ n : Nat, (FsError.other n).errno = ENOSYS) ∧
    (∀ e : FsError,
      e.errno ∈ ([EINVAL, ENOENT, EACCES, ERANGE, 5, ENOSYS] : List Int)) := by
  refine ⟨fun V e => rfl, rfl, rfl, fun n => rfl, ?_⟩
  intro e
  cases e <;> simp [FsError.errno]

/-- C9: a filesystem that keeps the default statfs gets a successful
statistics reply, not the not-implemented failure: all block, file and free
counts are zero, the block size is 512 and the maximum name length is 255. -/
theorem statfs_default_reply_values :
    defaultOutcome .statfs = .okStatfs 0 0 0 0 0 512 255 0 ∧
    ((defaultOutcome .statfs = DefaultOutcome.unimpl) = False) ∧
    statfsDefault.blocks = 0 ∧
    statfsDefault.bfree = 0 ∧
    statfsDefault.bavail = 0 ∧
    statfsDefault.files = 0 ∧
    statfsDefault.ffree = 0 ∧
    statfsDefault.bsize = 512 ∧
    statfsDefault.namelen = 255 := by
  refine ⟨rfl, ?_, rfl, rfl, rfl, rfl, rfl, rfl, rfl⟩
  simp [defaultOutcome]

/-- C10: for every create request the bridge reads the uid and gid of the
request identity and appends them to the contract create call after the
transport parameters (parent, name, mode, flags), and create is the only
operation whose entry point forwards the caller credentials. -/
theorem create_forwards_caller_credentials :
    (∀ (req : Request) (parent : Nat) (name : String) (mode flags : Nat),
      createForwarded req parent name mode flags =
        (parent, name, mode, flags, req.uid, req.gid)) ∧
    (∀ op : FsOp, forwardsCredentials op = true ↔ op = .create) := by
  refine ⟨fun req p n m f => rfl, ?_⟩
  decide

end TiFs
